import Mathlib

/-!
Shallow embedding of the NomiAI core (agent.py): the resilient request
client `fmp.make_req`, the per-conversation session manager
`AgentSession.process_input`, the process-wide session store used by
`send_msg`, and the `/chat` route handler.

External effects (HTTP responses, transport exceptions, the agent runner
stream, clock readings) are supplied as explicit environment values; the
control flow of the Python code is translated line by line.
-/

/- ===== Resilient request client (fmp.make_req, agent.py lines 57-91) ===== -/

/-- Behaviour of one HTTP GET attempt, as observed by `make_req`.
`response status body` is an HTTP response; `body` is relevant only when
`status = 200`: `.ok doc` means `req.json()` decodes to the document `doc`,
`.error m` means the decode raises (a `requests`-level exception with
message `m`, caught by the `RequestException` handler).
`timeoutExc` is `requests.exceptions.Timeout`; `requestExc m` is any other
`requests.exceptions.RequestException` with message `m`. -/
inductive HttpAttempt where
  | response (status : Nat) (body : Except String String)
  | timeoutExc
  | requestExc (msg : String)
deriving Repr

/-- Value `make_req` hands back to callers: either the decoded JSON payload
(kept opaque as a string document) or the `{"error": msg}` dictionary. -/
inductive ReqResult where
  | payload (doc : String)
  | errorDict (msg : String)
deriving DecidableEq, Repr

/-- Observable trace of one `make_req` call: the authenticated URL it
requests, the returned value, the `time.sleep` durations performed in
order, and how many HTTP attempts were actually made. -/
structure ReqTrace where
  requestedUrl : String
  result : ReqResult
  sleeps : List Nat
  attemptsMade : Nat
deriving DecidableEq, Repr

/-- agent.py line 60: `max_retries = 3`. -/
def max_retries : Nat := 3

/-- agent.py line 61: `retry_delay = 1`. -/
def retry_delay : Nat := 1

/-- agent.py lines 66-67: append the API key with `&` if the URL already
holds a query string, else with `?`. -/
def authenticatedUrl (api_key url : String) : String :=
  let separator := if url.contains '?' then "&" else "?"
  url ++ separator ++ "apikey=" ++ api_key

/-- The `for attempt in range(max_retries)` loop of `make_req`
(agent.py lines 63-89), with `remaining` iterations left and the current
0-based `attempt` index; `sleeps` accumulates the waits performed so far.
Falling out of the loop returns `{"error": "Max retries exceeded"}`
(line 91). -/
def makeReqAux (authUrl : String) (att : Nat → HttpAttempt) :
    Nat → Nat → List Nat → ReqTrace
  | 0, attempt, sleeps =>
      ⟨authUrl, .errorDict "Max retries exceeded", sleeps, attempt⟩
  | remaining + 1, attempt, sleeps =>
      match att attempt with
      | .response status body =>
          if status = 200 then
            match body with
            | .ok doc => ⟨authUrl, .payload doc, sleeps, attempt + 1⟩
            | .error m =>
                ⟨authUrl, .errorDict ("Request failed: " ++ m), sleeps, attempt + 1⟩
          else if status = 429 then
            makeReqAux authUrl att remaining (attempt + 1)
              (sleeps ++ [retry_delay * (attempt + 1)])
          else if 500 ≤ status then
            makeReqAux authUrl att remaining (attempt + 1) (sleeps ++ [retry_delay])
          else
            ⟨authUrl, .errorDict ("API Error " ++ toString status), sleeps, attempt + 1⟩
      | .timeoutExc =>
          if attempt < max_retries - 1 then
            makeReqAux authUrl att remaining (attempt + 1) (sleeps ++ [retry_delay])
          else
            makeReqAux authUrl att remaining (attempt + 1) sleeps
      | .requestExc m =>
          ⟨authUrl, .errorDict ("Request failed: " ++ m), sleeps, attempt + 1⟩

/-- `fmp.make_req(url)` (agent.py lines 57-91). `att n` is the behaviour of
the HTTP GET on the (0-based) attempt `n`. -/
def make_req (api_key url : String) (att : Nat → HttpAttempt) : ReqTrace :=
  makeReqAux (authenticatedUrl api_key url) att max_retries 0 []

/- ===== Conversation session (AgentSession, agent.py lines 7887-7967) ===== -/

/-- One entry of the client-supplied `history` array: a JSON dict whose
`role` and `content` keys may each be absent (`dict.get` returns None). -/
structure HistEntry where
  role : Option String
  content : Option String
deriving DecidableEq, Repr

/-- agent.py lines 7922-7923: render one history entry as the role label
followed by a colon and the content, where the label is Utente when the
role key equals user and Assistente otherwise, and a missing content key
defaults to the empty string. -/
def renderEntry (h : HistEntry) : String :=
  let role := if h.role = some "user" then "Utente" else "Assistente"
  role ++ ": " ++ h.content.getD ""

/-- agent.py lines 7919-7923: `recent_history = client_history[-6:] if
len(client_history) > 6 else client_history`, then render every entry of
`recent_history[:-1]` (the current message is excluded). -/
def contextParts (client_history : List HistEntry) : List String :=
  let recent_history :=
    if client_history.length > 6 then
      client_history.drop (client_history.length - 6)
    else client_history
  recent_history.dropLast.map renderEntry

/-- agent.py lines 7916-7926: the effective prompt `context_msg`. The
framing header is added only when the client history has more than one
entry and at least one line was rendered. -/
def buildContext (msg : String) (client_history : Option (List HistEntry)) : String :=
  match client_history with
  | none => msg
  | some ch =>
      if ch.length > 1 then
        let parts := contextParts ch
        if parts.isEmpty then msg
        else
          "Contesto conversazione precedente:\n" ++ String.intercalate "\n" parts ++
            "\n\nMessaggio corrente: " ++ msg
      else msg

/-- One response part inside a streamed event content. `text = some t`
models a part whose `text` attribute is the string `t`; `text = none`
models a part carrying no text (e.g. structured function-call data, whose
`text` attribute is None). -/
structure EvPart where
  text : Option String
deriving DecidableEq, Repr

/-- The `content` of a streamed runner event: its `parts` list (possibly
empty) and its `str()` rendering `asStr`, used when `parts` is empty. -/
structure EvContent where
  parts : List EvPart
  asStr : String
deriving DecidableEq, Repr

/-- One streamed runner event; `content = none` models an event with no
(or a falsy) `content` attribute. -/
structure RunEvent where
  content : Option EvContent
deriving DecidableEq, Repr

/-- agent.py lines 7942-7945: the inner `for part in event.content.parts`
loop, appending `part.text` when the part has a non-None text whose
`strip()` is non-empty. `acc` is the `response_events` list built so far. -/
def partsLoop (acc : List String) : List EvPart → List String
  | [] => acc
  | p :: ps =>
      match p.text with
      | some t => if t.trim ≠ "" then partsLoop (acc ++ [t]) ps else partsLoop acc ps
      | none => partsLoop acc ps

/-- agent.py lines 7934-7947: the `async for event in runner.run_async(...)`
loop building `response_events`: events without content are skipped, events
whose content has a non-empty `parts` list go through `partsLoop`, and a
content with empty parts contributes `str(event.content)`. -/
def eventsLoop (acc : List String) : List RunEvent → List String
  | [] => acc
  | e :: es =>
      match e.content with
      | none => eventsLoop acc es
      | some c =>
          if c.parts.isEmpty then eventsLoop (acc ++ [c.asStr]) es
          else eventsLoop (partsLoop acc c.parts) es

/-- agent.py line 7964: the fixed user-facing error string returned when any
exception is caught by `process_input`. -/
def errorString : String := "Si è verificato un errore. Riprova tra qualche momento."

/-- agent.py line 7951: the fixed fallback apology substituted when no
response fragment was extracted from the stream. -/
def fallbackApology : String :=
  "Mi dispiace, non sono riuscito a elaborare una risposta. Potresti riprovare?"

/-- One ConversationTurn as appended at agent.py lines 7955-7959. -/
structure Turn where
  user_message : String
  agent_response : String
  timestamp : String
deriving DecidableEq, Repr

/-- One `AgentSession` object (agent.py lines 7887-7893): `hasSession`
models `self.session` being set and non-None, `hasRunner` models
`self.runner` being non-None, `list` is the conversation log and `i` the
chat session identifier `cid`. -/
structure AgentSession where
  hasSession : Bool
  hasRunner : Bool
  list : List Turn
  i : String
deriving DecidableEq, Repr

/-- Behaviour of the external collaborators during one `process_input`
call: whether `session_service.create_session` raises, whether the
`Runner(...)` constructor raises, what `runner.run_async` does as a
function of the effective prompt (raise, or stream a list of events), and
the `datetime.now()` reading used for the turn timestamp. -/
structure RunnerEnv where
  initSessionFails : Bool
  runnerInitFails : Bool
  runResult : String → Except String (List RunEvent)
  now : String

/-- agent.py lines 7949-7960: the tail of the happy path, after the runner
stream was consumed into `response_events`. The Python comprehension
`[resp for resp in response_events if resp is not None]` filters nothing
here because only strings are ever appended. -/
def finishStream (s2 : AgentSession) (msg now : String)
    (response_events : List String) : AgentSession × String :=
  let valid_responses := response_events
  let response :=
    if valid_responses.isEmpty then fallbackApology
    else String.intercalate "\n" valid_responses
  ({ s2 with list := s2.list ++ [⟨msg, response, now⟩] }, response)

/-- `AgentSession.process_input(msg, client_history)` (agent.py lines
7904-7964), returning the updated session object and the response string.
A raise from session initialization, runner construction, or the runner
invocation is caught by the enclosing `try` and turns into `errorString`;
a failing call leaves `list` untouched (the append happens after the
stream is fully consumed). -/
def process_input (env : RunnerEnv) (s : AgentSession) (msg : String)
    (client_history : Option (List HistEntry)) : AgentSession × String :=
  if !s.hasSession && env.initSessionFails then (s, errorString)
  else
    let s1 := { s with hasSession := true }
    if !s1.hasRunner && env.runnerInitFails then (s1, errorString)
    else
      let s2 := { s1 with hasRunner := true }
      let context_msg := buildContext msg client_history
      match env.runResult context_msg with
      | .error _ => (s2, errorString)
      | .ok events => finishStream s2 msg env.now (eventsLoop [] events)

/-- Success predicate of one `process_input` call: no step of the call
raises. Mirrors the three failure points of `process_input`. -/
def callSucceeds (env : RunnerEnv) (s : AgentSession) (msg : String)
    (client_history : Option (List HistEntry)) : Bool :=
  (!(!s.hasSession && env.initSessionFails)) &&
  (!(!s.hasRunner && env.runnerInitFails)) &&
  (match env.runResult (buildContext msg client_history) with
   | .ok _ => true
   | .error _ => false)

/-- Modelled from the spec: the non-empty plain-text fragments one event
contributes to the visible response. Parts carrying structured
tool-invocation data (no text) are skipped; text parts count only when
their stripped text is non-empty; a content without parts contributes its
textual rendering. This definition follows the wording of spec steps 5-6
and is compared against the source-derived `eventsLoop` in the theorems. -/
def eventFragments (e : RunEvent) : List String :=
  match e.content with
  | none => []
  | some c =>
      if c.parts.isEmpty then [c.asStr]
      else c.parts.filterMap fun p =>
        match p.text with
        | some t => if t.trim ≠ "" then some t else none
        | none => none

/-- Modelled from the spec: all extracted fragments of a stream, in arrival
order. -/
def specTextFragments (events : List RunEvent) : List String :=
  events.flatMap eventFragments

/- ===== Session store and web boundary (agent.py lines 7884, 7971-8018) ===== -/

/-- The process-wide `history` dict (agent.py line 7884), mapping a chat id
to its `AgentSession` object; modelled as an association list in insertion
order with unique keys for stores built by the code. -/
abbrev Store : Type := List (String × AgentSession)

/-- Dictionary lookup `history[chat_id]` / `chat_id in history`. -/
def storeFind (store : Store) (cid : String) : Option AgentSession :=
  match store with
  | [] => none
  | e :: rest => if e.1 = cid then some e.2 else storeFind rest cid

/-- Dictionary write-back for an existing key: the Python code mutates the
stored `AgentSession` object in place, which in value semantics replaces
every entry bound to `cid`. -/
def storeUpdate (store : Store) (cid : String) (s : AgentSession) : Store :=
  store.map fun p => if p.1 = cid then (cid, s) else p

/-- A fresh `AgentSession(agent=root_agent, cid=chat_id)` right after its
`initialize_session()` succeeded (agent.py lines 7889-7893, 7977-7978):
session context set, no runner yet, empty log. -/
def freshSession (cid : String) : AgentSession :=
  { hasSession := true, hasRunner := false, list := [], i := cid }

/-- The get-or-create part of `send_msg` (agent.py lines 7976-7982): look
`chat_id` up in `history`; when absent, build a new `AgentSession`, run its
one-time `initialize_session()` (which may raise, escaping `send_msg`), and
insert it. Returns the store and the session handle to use. -/
def get_or_create (env : RunnerEnv) (store : Store) (cid : String) :
    Except String (Store × AgentSession) :=
  match storeFind store cid with
  | some s => .ok (store, s)
  | none =>
      if env.initSessionFails then .error "session initialization raised"
      else .ok (store ++ [(cid, freshSession cid)], freshSession cid)

/-- `send_msg(chat_id, msg, client_history)` (agent.py lines 7973-7985):
get-or-create, then `process_input` on the (shared, mutated in place)
session object. An exception escaping `initialize_session` propagates to
the caller as the `Except.error` case. -/
def send_msg (env : RunnerEnv) (store : Store) (chat_id msg : String)
    (client_history : Option (List HistEntry)) : Except String (Store × String) :=
  match get_or_create env store chat_id with
  | .error e => .error e
  | .ok (store1, session) =>
      let out := process_input env session msg client_history
      .ok (storeUpdate store1 chat_id out.1, out.2)

/-- Parsed JSON body of a POST to `/chat`; each key may be absent. -/
structure ChatBody where
  message : Option String
  chat_id : Option String
  history : Option (List HistEntry)

/-- Response of the `/chat` route: `success` is the HTTP 200 envelope
`{"response": ..., "chat_id": ..., "status": "success"}`, `badRequest`
the HTTP 400 error envelope and `serverError` the HTTP 500 one. -/
inductive ChatResp where
  | success (response : String) (chat_id : String)
  | badRequest (error : String)
  | serverError (error : String)
deriving DecidableEq, Repr

/-- The numeric HTTP status code of a `/chat` response. -/
def httpStatus : ChatResp → Nat
  | .success _ _ => 200
  | .badRequest _ => 400
  | .serverError _ => 500

/-- The `/chat` route handler (agent.py lines 7992-8018). `data = none`
models `request.get_json()` returning nothing parseable; a missing
`message` key yields HTTP 400; an exception escaping `send_msg` is caught
by the route-level handler and yields HTTP 500. -/
def chat (env : RunnerEnv) (store : Store) (data : Option ChatBody) :
    Store × ChatResp :=
  match data with
  | none => (store, .badRequest "Messaggio non fornito")
  | some d =>
      match d.message with
      | none => (store, .badRequest "Messaggio non fornito")
      | some message =>
          let chat_id := d.chat_id.getD "default"
          let client_history := d.history.getD []
          match send_msg env store chat_id message (some client_history) with
          | .ok (store1, response) => (store1, .success response chat_id)
          | .error e => (store, .serverError ("Errore del server: " ++ e))

/-- The turn log the store holds for `cid` (empty when the id is unknown);
used to state that a failed call appends no turn. -/
def sessionTurns (store : Store) (cid : String) : List Turn :=
  match storeFind store cid with
  | some s => s.list
  | none => []

/- ===== Concrete values used by the witnesses ===== -/

/-- Concrete session whose external context and runner already exist. -/
def sessReady : AgentSession :=
  { hasSession := true, hasRunner := true, list := [], i := "w" }

/-- Concrete environment in which the runner invocation raises. -/
def envRunnerRaises : RunnerEnv :=
  { initSessionFails := false, runnerInitFails := false
    runResult := fun _ => .error "boom", now := "t0" }

/-- Environment in which every external step succeeds and the runner
streams no events. -/
def envQuiet : RunnerEnv :=
  { initSessionFails := false, runnerInitFails := false
    runResult := fun _ => Except.ok [], now := "t" }

/-- Environment in which only the runner invocation raises, with error
message `e` and clock reading `now` (used to state C3). -/
def runnerRaisingEnv (e now : String) : RunnerEnv :=
  { initSessionFails := false, runnerInitFails := false
    runResult := fun _ => Except.error e, now := now }

/-- A concrete client history of 8 entries. -/
def hist8 : List HistEntry :=
  List.replicate 8 { role := some "user", content := some "x" }

/-- A concrete client history of a single entry. -/
def hist1 : List HistEntry := [{ role := none, content := none }]

/- ===== Helper lemmas ===== -/

theorem partsLoop_eq (ps : List EvPart) (acc : List String) :
    partsLoop acc ps = acc ++ (ps.filterMap fun p =>
      match p.text with
      | some t => if t.trim ≠ "" then some t else none
      | none => none) := by
  induction ps generalizing acc with
  | nil => simp [partsLoop]
  | cons p ps ih =>
      cases hp : p.text with
      | none => simp [partsLoop, hp, ih, List.filterMap_cons]
      | some t =>
          by_cases ht : t.trim = "" <;>
            simp [partsLoop, hp, ht, ih, List.filterMap_cons]

theorem eventsLoop_eq (evs : List RunEvent) (acc : List String) :
    eventsLoop acc evs = acc ++ specTextFragments evs := by
  induction evs generalizing acc with
  | nil => simp [eventsLoop, specTextFragments]
  | cons e es ih =>
      cases hc : e.content with
      | none =>
          simp [eventsLoop, hc, ih, specTextFragments, List.flatMap_cons,
            eventFragments]
      | some c =>
          by_cases hp : c.parts.isEmpty <;>
            simp [eventsLoop, hc, hp, ih, partsLoop_eq, specTextFragments,
              List.flatMap_cons, eventFragments, List.append_assoc]

/- ===== C4: all attempts rate-limited ===== -/

/-- C4: when every HTTP attempt yields status 429 (whatever the bodies are),
`make_req` makes exactly 3 attempts, sleeps `retry_delay * attempt_number`
after each — so the waits between the attempts are 1 and 2 time units (a
final wait of 3 happens after the last attempt, before the loop exits) —
and returns the generic `{"error": "Max retries exceeded"}` value. -/
theorem c4_make_req_429_exhausts (api_key url : String)
    (bodies : Nat → Except String String) :
    make_req api_key url (fun n => .response 429 (bodies n)) =
      ⟨authenticatedUrl api_key url, .errorDict "Max retries exceeded", [1, 2, 3], 3⟩
    ∧ (make_req api_key url (fun n => .response 429 (bodies n))).sleeps.take 2 = [1, 2] := by
  constructor <;> rfl

/- ===== C8: all attempts time out ===== -/

/-- C8: when every attempt raises a transport timeout, `make_req` still
terminates by the loop-final fallback: 3 attempts, fixed 1-unit waits after
the first two (the timeout branch on the last attempt sleeps nothing and
produces no result of its own), and the returned value is the generic
`{"error": "Max retries exceeded"}` dictionary. -/
theorem c8_make_req_timeout_exhausts (api_key url : String) :
    make_req api_key url (fun _ => .timeoutExc) =
      ⟨authenticatedUrl api_key url, .errorDict "Max retries exceeded", [1, 1], 3⟩ := by
  rfl

/- ===== C5: make_req always returns a result value ===== -/

/-- C5: `make_req` is total and never raises to its caller: for every URL
and every behaviour of the HTTP attempts it returns either a decoded
payload or an error dictionary; in particular an HTTP 200 whose body fails
to decode as JSON is caught (the decode error is a `requests`-level
exception) and comes back as a generic `Request failed` error value on the
first attempt. -/
theorem c5_make_req_never_raises :
    (∀ (api_key url : String) (att : Nat → HttpAttempt),
      (∃ doc, (make_req api_key url att).result = .payload doc) ∨
      (∃ m, (make_req api_key url att).result = .errorDict m))
    ∧ (∀ (api_key url m : String),
      make_req api_key url (fun _ => .response 200 (.error m)) =
        ⟨authenticatedUrl api_key url, .errorDict ("Request failed: " ++ m), [], 1⟩) := by
  constructor
  · intro api_key url att
    cases h : (make_req api_key url att).result with
    | payload doc => exact Or.inl ⟨doc, rfl⟩
    | errorDict m => exact Or.inr ⟨m, rfl⟩
  · intro api_key url m
    rfl

/- ===== C1: process_input is total and converts every raise ===== -/

/-- C1: `process_input` always returns a string (it is a total function of
the embedding), and whenever any step of the call raises — session
initialization, runner construction, or the runner invocation on the built
context — the exception is caught and the returned string is the fixed
user-facing `errorString`. -/
theorem c1_process_input_catches_everything (env : RunnerEnv) (s : AgentSession)
    (msg : String) (ch : Option (List HistEntry))
    (hfail : callSucceeds env s msg ch = false) :
    (process_input env s msg ch).2 = errorString := by
  cases hs : s.hasSession <;> cases hi : env.initSessionFails <;>
    cases hr : s.hasRunner <;> cases hri : env.runnerInitFails <;>
    rcases hrr : env.runResult (buildContext msg ch) with e | evs <;>
    simp_all [process_input, callSucceeds, finishStream]

/-- Witness for C1 at a concrete failing input. -/
theorem c1_witness :
    (process_input envRunnerRaises sessReady "ciao" none).2 = errorString :=
  c1_process_input_catches_everything envRunnerRaises sessReady "ciao" none rfl

/- ===== C2: the turn log grows by one on success, not at all on failure ===== -/

/-- C2: a successful `process_input` call appends exactly one turn to the
own log of the session, recording the original input message (not the
context-augmented prompt) and the returned response; a failed call leaves
the log unchanged; and the append touches nothing else — in particular the
session identifier is preserved (the `hasSession`/`hasRunner` handles can
flip only through lazy initialization, never through the append). -/
theorem c2_process_input_log_frame (env : RunnerEnv) (s : AgentSession)
    (msg : String) (ch : Option (List HistEntry)) :
    ((process_input env s msg ch).1.list =
      if callSucceeds env s msg ch then
        s.list ++ [⟨msg, (process_input env s msg ch).2, env.now⟩]
      else s.list)
    ∧ (process_input env s msg ch).1.i = s.i := by
  cases hs : s.hasSession <;> cases hi : env.initSessionFails <;>
    cases hr : s.hasRunner <;> cases hri : env.runnerInitFails <;>
    rcases hrr : env.runResult (buildContext msg ch) with e | evs <;>
    simp_all [process_input, callSucceeds, finishStream]

/- ===== C7: the response is the newline-join of the extracted fragments ===== -/

/-- C7: for every stream of runner events (other steps succeeding), the
response returned by `process_input` is the newline-join, in arrival order,
of exactly the non-empty plain-text fragments the stream carries
(`specTextFragments`, written from the spec), or the fixed fallback apology
when no fragment was extracted; and an event carrying only structured
tool-invocation parts (text-less parts) contributes no fragment at all —
it is ignored without aborting the stream. -/
theorem c7_process_input_response_join (s : AgentSession) (msg : String)
    (ch : Option (List HistEntry)) (evs : List RunEvent) (now : String) :
    ((process_input ⟨false, false, fun _ => Except.ok evs, now⟩ s msg ch).2 =
      if (specTextFragments evs).isEmpty then fallbackApology
      else String.intercalate "\n" (specTextFragments evs))
    ∧ (∀ r : String,
        specTextFragments [RunEvent.mk (some (EvContent.mk [EvPart.mk none] r))] = []) := by
  constructor
  · simp [process_input, finishStream, eventsLoop_eq]
  · intro r
    rfl

/- ===== Store lemmas ===== -/

theorem storeFind_update (st : Store) (cid : String) (s : AgentSession) :
    storeFind (storeUpdate st cid s) cid = (storeFind st cid).map fun _ => s := by
  induction st with
  | nil => rfl
  | cons e rest ih =>
      by_cases he : e.1 = cid
      · simp [storeFind, storeUpdate, he, ih]
      · simp [storeFind, storeUpdate, he]
        simpa [storeUpdate] using ih

theorem storeFind_append_self (st : Store) (cid : String) (x : AgentSession)
    (h : storeFind st cid = none) :
    storeFind (st ++ [(cid, x)]) cid = some x := by
  induction st with
  | nil => simp [storeFind]
  | cons e rest ih =>
      by_cases he : e.1 = cid
      · simp [storeFind, he] at h
      · simp only [storeFind, he, if_false, List.cons_append, if_neg he] at h ⊢
        exact ih h

theorem storeFind_key (st : Store) (cid : String) (s : AgentSession)
    (h : storeFind st cid = some s) : ∃ p ∈ st, p.1 = cid ∧ p.2 = s := by
  induction st with
  | nil => simp [storeFind] at h
  | cons e rest ih =>
      by_cases he : e.1 = cid
      · simp [storeFind, he] at h
        exact ⟨e, List.mem_cons_self _ _, he, h⟩
      · simp only [storeFind, if_neg he] at h
        obtain ⟨p, hp, h1, h2⟩ := ih h
        exact ⟨p, List.mem_cons_of_mem _ hp, h1, h2⟩

/-- The session handle `get_or_create` returns is registered under the id
that was asked for (fresh sessions carry it by construction, stored ones by
the store invariant). -/
theorem get_or_create_id (env : RunnerEnv) (st : Store) (cid : String)
    (st1 : Store) (s1 : AgentSession)
    (hwf : ∀ p ∈ st, (p.2).i = p.1)
    (h : get_or_create env st cid = .ok (st1, s1)) : s1.i = cid := by
  rcases hfind : storeFind st cid with _ | s
  · by_cases hf : env.initSessionFails
    · simp [get_or_create, hfind, hf] at h
    · simp [get_or_create, hfind, hf] at h
      rw [← h.2]
      rfl
  · simp [get_or_create, hfind] at h
    obtain ⟨p, hp, h1, h2⟩ := storeFind_key st cid s hfind
    rw [← h.2, ← h2, hwf p hp, h1]

/- ===== C6: bounded context window ===== -/

/-- C6: for an 8-entry client history the rendered context lines are
exactly those of the last 6 entries minus the trailing one (the entries at
positions 2..6, i.e. `(h.drop 2).take 5`), 5 lines in all, and the
effective prompt is the framing header around them; for a history of one
entry, and for an absent history, no context header is added and the
effective prompt is the raw message verbatim. -/
theorem c6_context_window (msg : String) (h : List HistEntry) (h8 : h.length = 8)
    (h1 : List HistEntry) (hle : h1.length ≤ 1) :
    contextParts h = ((h.drop 2).take 5).map renderEntry
    ∧ (contextParts h).length = 5
    ∧ buildContext msg (some h) =
        "Contesto conversazione precedente:\n" ++
          String.intercalate "\n" (((h.drop 2).take 5).map renderEntry) ++
          "\n\nMessaggio corrente: " ++ msg
    ∧ buildContext msg (some h1) = msg
    ∧ buildContext msg none = msg := by
  have hdrop : (h.drop 2).length = 6 := by rw [List.length_drop, h8]
  have hdl : (h.drop 2).dropLast = (h.drop 2).take 5 := by
    rw [List.dropLast_eq_take, hdrop]
  have hparts : contextParts h = ((h.drop 2).take 5).map renderEntry := by
    simp [contextParts, h8, hdl]
  have hlen : (contextParts h).length = 5 := by
    rw [hparts]
    simp [List.length_take, hdrop]
    omega
  refine ⟨hparts, hlen, ?_, ?_, rfl⟩
  · have hne : (((h.drop 2).take 5).map renderEntry).isEmpty = false := by
      rw [← hparts]
      rcases he : (contextParts h).isEmpty
      · rfl
      · rw [List.isEmpty_iff] at he
        rw [he] at hlen
        simp at hlen
    simp [buildContext, h8, hparts, hne]
  · rcases h1 with _ | ⟨a, t⟩
    · rfl
    · rcases t with _ | ⟨b, t2⟩
      · rfl
      · simp [List.length_cons] at hle

/-- Witness for C6 at concrete histories of 8 and 1 entries. -/
theorem c6_witness :
    contextParts hist8 = ((hist8.drop 2).take 5).map renderEntry
    ∧ (contextParts hist8).length = 5
    ∧ buildContext "m" (some hist8) =
        "Contesto conversazione precedente:\n" ++
          String.intercalate "\n" (((hist8.drop 2).take 5).map renderEntry) ++
          "\n\nMessaggio corrente: " ++ "m"
    ∧ buildContext "m" (some hist1) = "m"
    ∧ buildContext "m" none = "m" :=
  c6_context_window "m" hist8 rfl hist1 (by decide)

/- ===== C10: context rendering is total and defaults to the agent side ===== -/

/-- C10: a history entry whose `role` is anything but exactly `user`
(including an absent role) renders with the agent label `Assistente`, and
an entry of the same role with a missing `content` renders with the empty
string rather than failing. -/
theorem c10_render_default (h : HistEntry) (hr : h.role ≠ some "user") :
    renderEntry h = "Assistente: " ++ h.content.getD ""
    ∧ renderEntry { role := h.role, content := none } = "Assistente: " := by
  have hlit : ("Assistente" ++ ": " : String) = "Assistente: " := rfl
  constructor
  · show (if h.role = some "user" then "Utente" else "Assistente") ++ ": " ++
        h.content.getD "" = _
    rw [if_neg hr, hlit]
  · show (if h.role = some "user" then "Utente" else "Assistente") ++ ": " ++
        (none : Option String).getD "" = _
    rw [if_neg hr, hlit]
    rfl

/-- Witness for C10 at a concrete role-less entry. -/
theorem c10_witness :
    renderEntry { role := none, content := some "ok" } = "Assistente: ok"
    ∧ renderEntry { role := none, content := none } = "Assistente: " :=
  c10_render_default { role := none, content := some "ok" } (by decide)

/- ===== C3: a runner raise still yields HTTP 200 and no logged turn ===== -/

/-- C3: when the runner invocation raises internally, the `/chat` route
still answers with the HTTP 200 success envelope, the `response` field is
the fixed apology `errorString`, and the turn log held for that chat id is
exactly what it was before the request (no turn appended), whatever the
store contained and whether or not the id already had a session. -/
theorem c3_chat_runner_raise (e now msg : String) (cido : Option String)
    (histo : Option (List HistEntry)) (store : Store) :
    (chat (runnerRaisingEnv e now) store (some ⟨some msg, cido, histo⟩)).2 =
      ChatResp.success errorString (cido.getD "default")
    ∧ httpStatus
        (chat (runnerRaisingEnv e now) store (some ⟨some msg, cido, histo⟩)).2 = 200
    ∧ sessionTurns
        (chat (runnerRaisingEnv e now) store (some ⟨some msg, cido, histo⟩)).1
        (cido.getD "default") =
      sessionTurns store (cido.getD "default") := by
  have hpi : ∀ s : AgentSession,
      process_input (runnerRaisingEnv e now) s msg (some (histo.getD [])) =
        ({ s with hasSession := true, hasRunner := true }, errorString) := by
    intro s
    simp [process_input, runnerRaisingEnv]
  have hflag : (runnerRaisingEnv e now).initSessionFails = false := rfl
  have hfl : (freshSession (cido.getD "default")).list = [] := rfl
  rcases hfind : storeFind store (cido.getD "default") with _ | s
  · have happ := storeFind_append_self store (cido.getD "default")
      (freshSession (cido.getD "default")) hfind
    simp [chat, send_msg, get_or_create, hflag, hpi, hfind,
      httpStatus, sessionTurns, storeFind_update, happ, hfl]
  · simp [chat, send_msg, get_or_create, hflag, hpi, hfind,
      httpStatus, sessionTurns, storeFind_update]

/- ===== C9: get-or-create is idempotent per key, injective across keys ===== -/

/-- C9: on a store whose entries carry their own key (the invariant the
code maintains), a successful get-or-create followed by another
get-or-create with the same id returns the very same store and session
object, with no re-initialization (the store is untouched); and two
get-or-create calls with distinct ids return distinct session objects. -/
theorem c9_get_or_create (env : RunnerEnv) (st : Store) (cid cid2 : String)
    (hwf : ∀ p ∈ st, (p.2).i = p.1) :
    (∀ st1 s1, get_or_create env st cid = .ok (st1, s1) →
        get_or_create env st1 cid = .ok (st1, s1) ∧ s1.i = cid)
    ∧ (∀ st1 s1 st2 s2, cid ≠ cid2 →
        get_or_create env st cid = .ok (st1, s1) →
        get_or_create env st cid2 = .ok (st2, s2) → s1 ≠ s2) := by
  constructor
  · intro st1 s1 h1
    have hid := get_or_create_id env st cid st1 s1 hwf h1
    refine ⟨?_, hid⟩
    rcases hfind : storeFind st cid with _ | s
    · by_cases hf : env.initSessionFails
      · simp [get_or_create, hfind, hf] at h1
      · simp [get_or_create, hfind, hf] at h1
        rw [← h1.1, ← h1.2]
        simp [get_or_create, storeFind_append_self st cid (freshSession cid) hfind]
    · simp [get_or_create, hfind] at h1
      rw [← h1.1, ← h1.2]
      simp [get_or_create, hfind]
  · intro st1 s1 st2 s2 hne h1 h2 heq
    have hid1 := get_or_create_id env st cid st1 s1 hwf h1
    have hid2 := get_or_create_id env st cid2 st2 s2 hwf h2
    rw [heq, hid2] at hid1
    exact hne hid1.symm

/-- Witness for C9 at a fresh store and the ids `abc` and `xyz`. -/
theorem c9_witness :
    (get_or_create envQuiet [("abc", freshSession "abc")] "abc" =
        Except.ok ([("abc", freshSession "abc")], freshSession "abc")
      ∧ (freshSession "abc").i = "abc")
    ∧ freshSession "abc" ≠ freshSession "xyz" := by
  have h := c9_get_or_create envQuiet [] "abc" "xyz" (by simp)
  refine ⟨h.1 [("abc", freshSession "abc")] (freshSession "abc") rfl, ?_⟩
  exact h.2 [("abc", freshSession "abc")] (freshSession "abc")
    [("xyz", freshSession "xyz")] (freshSession "xyz") (by decide) rfl rfl
